import Mathlib

/-!
Shallow embedding of `src/livekit-agent/server.py`: a Flask service with two
token-issuing endpoints, `POST /token` (`generate_token`) and `GET /getToken`
(`getToken`).  Python values crossing the HTTP boundary are modelled
explicitly: a parsed JSON body is a `JsonVal` (with `JsonVal.null` standing
for Python `None`, which is also what `request.get_json()` yields when no
JSON body is provided), query parameters are `Option String` (with `none`
for an absent parameter), and environment variables are `Option String`
(with `none` for an unset variable, matching `os.getenv`).
-/

/-- A parsed JSON value as Python represents it (`None`, `bool`, number,
`str`, `list`, `dict`).  `null` doubles as Python `None`. -/
inductive JsonVal where
  | null : JsonVal
  | bool (b : Bool) : JsonVal
  | num (n : Int) : JsonVal
  | str (s : String) : JsonVal
  | arr (elems : List JsonVal) : JsonVal
  | obj (fields : List (String × JsonVal)) : JsonVal


/-- Python truthiness of a parsed JSON value: `None`, `False`, `0`, `""`,
`[]` and `\x7b\x7d` are falsy, everything else is truthy.  This is the test
performed by `if not data:` and `if not room_name or not participant_name:`
in `generate_token`. -/
def JsonVal.truthy : JsonVal → Bool
  | .null => false
  | .bool b => b
  | .num n => n != 0
  | .str s => s != ""
  | .arr elems => !elems.isEmpty
  | .obj fields => !fields.isEmpty

/-- Lookup of a key in a parsed JSON object (a Python `dict`, whose parsed
keys are unique): `data.get(key)` returns the value when the key is present
and Python `None` when it is absent.  At call sites the two-argument form
`data.get(key, default)` is `(lookupField fields key).getD default`. -/
def lookupField : List (String × JsonVal) → String → Option JsonVal
  | [], _ => none
  | (k, v) :: rest, key => if k = key then some v else lookupField rest key

/-- Python truthiness test `not x` applied to the result of `os.getenv` or
`dict.get` when the value, if present, is a string: true exactly when the
variable is unset (`None`) or set to the empty string. -/
def pyNot : Option String → Bool
  | none => true
  | some s => s == ""

/-- The process environment read by the handlers via `os.getenv`:
`LIVEKIT_API_KEY`, `LIVEKIT_API_SECRET`, `LIVEKIT_URL`.  `none` means the
variable is unset. -/
structure Env where
  api_key : Option String
  api_secret : Option String
  url : Option String

/-- The `api.VideoGrants(...)` keyword arguments the server passes.  A field
the call site omits is `none`; the source never relies on the library's own
defaults beyond the fields it passes, and the spec records the omitted flags
as simply absent from the grant set. -/
structure VideoGrants where
  room_join : Bool
  room : JsonVal
  can_publish : Option Bool
  can_subscribe : Option Bool
  can_publish_data : Option Bool


/-- The data assembled by
`api.AccessToken(key, secret).with_identity(i).with_name(n).with_grants(g)`
immediately before `to_jwt()` is invoked on it.  `identity` and `name` are
`JsonVal` because `generate_token` forwards whatever JSON values the body
carried. -/
structure AccessToken where
  api_key : String
  api_secret : String
  identity : JsonVal
  name : JsonVal
  grants : VideoGrants


/-- An HTTP response body: either `jsonify(...)` output or, on the legacy
endpoint's success path, the raw token string returned directly. -/
inductive Body where
  | json (v : JsonVal) : Body
  | raw (s : String) : Body


/-- An HTTP response: status code and body. -/
structure HttpResponse where
  status : Nat
  body : Body


/-- Hex digit character for `n % 16`. -/
def hexChar (n : Nat) : Char :=
  Char.ofNat (if n % 16 < 10 then 48 + n % 16 else 87 + n % 16)

/-- Byte-wise hex encoding of a character list; the output uses only the
characters `0`-`9` and `a`-`f`, so in particular it never contains `.`. -/
def encChars : List Char → List Char
  | [] => []
  | c :: cs => hexChar (c.toNat / 16) :: hexChar c.toNat :: encChars cs

/-- A single compact-token segment: a dot-free encoding of a string. -/
def encSeg (s : String) : String :=
  ⟨encChars s.data⟩

mutual

/-- Rendering of a JSON value into the token's claims text. -/
def renderJson : JsonVal → String
  | .null => "null"
  | .bool true => "true"
  | .bool false => "false"
  | .num n => toString n
  | .str s => "\"" ++ s ++ "\""
  | .arr elems => "[" ++ renderJsonList elems ++ "]"
  | .obj fields => "\x7b" ++ renderJsonFields fields ++ "\x7d"

/-- Rendering of a JSON array's elements, comma separated. -/
def renderJsonList : List JsonVal → String
  | [] => ""
  | [v] => renderJson v
  | v :: vs => renderJson v ++ "," ++ renderJsonList vs

/-- Rendering of a JSON object's fields, comma separated. -/
def renderJsonFields : List (String × JsonVal) → String
  | [] => ""
  | [(k, v)] => "\"" ++ k ++ "\":" ++ renderJson v
  | (k, v) :: kvs => "\"" ++ k ++ "\":" ++ renderJson v ++ "," ++ renderJsonFields kvs

end

/-- Rendering of the grant set into the token's claims text. -/
def renderGrants (g : VideoGrants) : String :=
  "roomJoin:" ++ (if g.room_join then "true" else "false") ++
  ",room:" ++ renderJson g.room ++
  ",canPublish:" ++ (match g.can_publish with
    | none => "absent"
    | some b => if b then "true" else "false") ++
  ",canSubscribe:" ++ (match g.can_subscribe with
    | none => "absent"
    | some b => if b then "true" else "false") ++
  ",canPublishData:" ++ (match g.can_publish_data with
    | none => "absent"
    | some b => if b then "true" else "false")

/-- The claims text of a token: subject identity, display name, grant set
and issuer key id. -/
def claimsString (t : AccessToken) : String :=
  "sub:" ++ renderJson t.identity ++ ",name:" ++ renderJson t.name ++
  ",video:\x7b" ++ renderGrants t.grants ++ "\x7d,iss:" ++ t.api_key

/-- Modelled from the spec: the livekit signing library
(`api.AccessToken.to_jwt`) is not part of the repository.  Per the spec a
signed token is an opaque compact string of three dot-separated segments —
header, claims and signature — encoding identity, name, grants and issuer
key id, signed with the shared secret. -/
def to_jwt (t : AccessToken) : String :=
  encSeg "\x7b\"alg\":\"HS256\",\"typ\":\"JWT\"\x7d" ++ "." ++
  encSeg (claimsString t) ++ "." ++
  encSeg (t.api_secret ++ "." ++ claimsString t)

/-- The concrete signing operation used by the running server: `to_jwt`,
which never raises. -/
def sign_jwt : AccessToken → Except String String :=
  fun t => Except.ok (to_jwt t)

/-- The handler of `POST /token` (`generate_token` in `server.py`),
instrumented: it returns the HTTP response together with `some t` exactly
when the signing call `token.to_jwt()` was reached, where `t` is the access
token passed to it (`none` when signing was never attempted).  The signing
operation itself is a parameter `sign` so that its failure behaviour can be
quantified over; a raised exception is an `Except.error`.  `data` is the
value produced by `request.get_json()`, with `JsonVal.null` for a missing
body; calling `.get` on a non-`dict` value raises `AttributeError`, which
the handler's `except Exception` turns into the generic 500 response. -/
def generate_token_run (sign : AccessToken → Except String String)
    (env : Env) (data : JsonVal) : HttpResponse × Option AccessToken :=
  if !data.truthy then
    (⟨400, .json (.obj [("error", .str "No JSON data provided")])⟩, none)
  else
    match data with
    | .obj fields =>
      let room_name := (lookupField fields "roomName").getD .null
      let participant_name := (lookupField fields "participantName").getD .null
      let participant_identity :=
        (lookupField fields "participantIdentity").getD participant_name
      if !room_name.truthy || !participant_name.truthy then
        (⟨400, .json (.obj [("error", .str "roomName and participantName are required")])⟩, none)
      else
        let api_key := env.api_key
        let api_secret := env.api_secret
        let server_url := env.url.getD "ws://localhost:7880"
        if pyNot api_key || pyNot api_secret then
          (⟨500, .json (.obj [("error", .str "Server configuration error")])⟩, none)
        else
          let token : AccessToken :=
            { api_key := api_key.getD ""
              api_secret := api_secret.getD ""
              identity := participant_identity
              name := participant_name
              grants :=
                { room_join := true
                  room := room_name
                  can_publish := some true
                  can_subscribe := some true
                  can_publish_data := some true } }
          match sign token with
          | .ok jwt_token =>
            (⟨200, .json (.obj
              [("serverUrl", .str server_url),
               ("roomName", room_name),
               ("participantName", participant_name),
               ("participantToken", .str jwt_token)])⟩, some token)
          | .error _ =>
            (⟨500, .json (.obj [("error", .str "Internal server error")])⟩, some token)
    | _ =>
      (⟨500, .json (.obj [("error", .str "Internal server error")])⟩, none)

/-- The `POST /token` handler as deployed: `generate_token_run` with the
concrete signer. -/
def generate_token (env : Env) (data : JsonVal) : HttpResponse :=
  (generate_token_run sign_jwt env data).1

/-- The handler of `GET /getToken` (`getToken` in `server.py`), instrumented
like `generate_token_run`.  `room` and `participant` are the query
parameters, `none` when absent; `request.args.get(key, default)` yields the
default only for an absent parameter, so a present-but-empty value stays
empty.  On success Flask turns the returned raw string into a 200 response
with that string as the body (modelled from the spec's interface table). -/
def getToken_run (sign : AccessToken → Except String String)
    (env : Env) (room participant : Option String) :
    HttpResponse × Option AccessToken :=
  let room_name := room.getD "my-room"
  let participant_name := participant.getD "anonymous"
  if pyNot env.api_key || pyNot env.api_secret then
    (⟨500, .json (.obj [("error", .str "Server configuration error")])⟩, none)
  else
    let token : AccessToken :=
      { api_key := env.api_key.getD ""
        api_secret := env.api_secret.getD ""
        identity := .str participant_name
        name := .str participant_name
        grants :=
          { room_join := true
            room := .str room_name
            can_publish := none
            can_subscribe := none
            can_publish_data := none } }
    match sign token with
    | .ok jwt_token => (⟨200, .raw jwt_token⟩, some token)
    | .error _ =>
      (⟨500, .json (.obj [("error", .str "Internal server error")])⟩, some token)

/-- The `GET /getToken` handler as deployed: `getToken_run` with the
concrete signer. -/
def getToken (env : Env) (room participant : Option String) : HttpResponse :=
  (getToken_run sign_jwt env room participant).1

/-- If `pyNot o = false` then the underlying string is present and non-empty. -/
theorem pyNot_eq_false_getD {o : Option String} (h : pyNot o = false) :
    o.getD "" ≠ "" := by
  cases o with
  | none => simp [pyNot] at h
  | some s => simpa [pyNot] using h

/-- A successful field lookup means the object is non-empty. -/
theorem lookupField_ne_nil {l : List (String × JsonVal)} {k : String} {v : JsonVal}
    (h : lookupField l k = some v) : l.isEmpty = false := by
  cases l with
  | nil => simp [lookupField] at h
  | cons p rest => rfl


/-- `hexChar` only depends on `n % 16`. -/
theorem hexChar_mod (n : Nat) : hexChar n = hexChar (n % 16) := by
  simp [hexChar, Nat.mod_mod_of_dvd]

/-- A hex digit character is never a dot. -/
theorem hexChar_ne_dot (n : Nat) : hexChar n ≠ '.' := by
  rw [hexChar_mod]
  have hlt : n % 16 < 16 := Nat.mod_lt _ (by norm_num)
  revert hlt
  generalize n % 16 = k
  revert k
  decide

/-- The hex encoding of a character list never contains a dot. -/
theorem encChars_no_dot (l : List Char) : '.' ∉ encChars l := by
  induction l with
  | nil => simp [encChars]
  | cons c cs ih =>
    simp only [encChars, List.mem_cons]
    push_neg
    exact ⟨fun h => hexChar_ne_dot _ h.symm, fun h => hexChar_ne_dot _ h.symm, ih⟩

/-- A compact-token segment never contains a dot. -/
theorem encSeg_no_dot (s : String) : '.' ∉ (encSeg s).data :=
  encChars_no_dot s.data

/-- A compact token: three dot-separated segments, none of which contains a
dot itself (so the whole string has exactly two dots). -/
def isCompactToken (s : String) : Prop :=
  ∃ a b c : String, s = a ++ "." ++ b ++ "." ++ c ∧
    '.' ∉ a.data ∧ '.' ∉ b.data ∧ '.' ∉ c.data

/-- Every token the modelled signer produces is a three-segment compact
token. -/
theorem to_jwt_isCompactToken (t : AccessToken) : isCompactToken (to_jwt t) :=
  ⟨encSeg "\x7b\"alg\":\"HS256\",\"typ\":\"JWT\"\x7d",
   encSeg (claimsString t),
   encSeg (t.api_secret ++ "." ++ claimsString t),
   by simp [to_jwt, String.append_assoc],
   encSeg_no_dot _, encSeg_no_dot _, encSeg_no_dot _⟩

/-- C7: for every `POST /token` request that arrives without a JSON body
(missing or empty body, so `request.get_json()` yields `None`), the handler
returns status 400 with body exactly
`\x7b"error": "No JSON data provided"\x7d`, and no signing is attempted. -/
theorem C7_no_json_body (sign : AccessToken → Except String String) (env : Env) :
    generate_token_run sign env .null =
      (⟨400, .json (.obj [("error", .str "No JSON data provided")])⟩, none) := rfl

/-- C10: for every `POST /token` request whose body parses to a falsy JSON
value — in particular the empty object and `null` — the handler returns 400
with the "No JSON data provided" error, not the missing-fields message, and
no signing is attempted. -/
theorem C10_falsy_body (sign : AccessToken → Except String String) (env : Env)
    (data : JsonVal) (h : data.truthy = false) :
    generate_token_run sign env data =
      (⟨400, .json (.obj [("error", .str "No JSON data provided")])⟩, none) ∧
    (generate_token_run sign env data).1 ≠
      ⟨400, .json (.obj [("error", .str "roomName and participantName are required")])⟩ := by
  have key : generate_token_run sign env data =
      (⟨400, .json (.obj [("error", .str "No JSON data provided")])⟩, none) := by
    simp [generate_token_run, h]
  exact ⟨key, by rw [key]; simp⟩

/-- Witness for C10 at the empty-object body. -/
theorem C10_falsy_body_witness :
    generate_token_run sign_jwt ⟨some "key", some "secret", none⟩ (.obj []) =
      (⟨400, .json (.obj [("error", .str "No JSON data provided")])⟩, none) ∧
    (generate_token_run sign_jwt ⟨some "key", some "secret", none⟩ (.obj [])).1 ≠
      ⟨400, .json (.obj [("error", .str "roomName and participantName are required")])⟩ :=
  C10_falsy_body sign_jwt ⟨some "key", some "secret", none⟩ (.obj []) rfl

/-- C2 counterexample: the body `\x7b\x7d` has `roomName` (and
`participantName`) absent, yet the handler does not return the
"roomName and participantName are required" response: it returns the
"No JSON data provided" response instead, because the empty dict is falsy. -/
theorem C2_counterexample :
    generate_token ⟨none, none, none⟩ (.obj []) ≠
      ⟨400, .json (.obj [("error", .str "roomName and participantName are required")])⟩ ∧
    generate_token ⟨none, none, none⟩ (.obj []) =
      ⟨400, .json (.obj [("error", .str "No JSON data provided")])⟩ := by
  constructor
  · have key : generate_token ⟨none, none, none⟩ (.obj []) =
        ⟨400, .json (.obj [("error", .str "No JSON data provided")])⟩ := rfl
    rw [key]
    simp
  · rfl

/-- C2 (amended): for every `POST /token` request whose parsed JSON body is
a non-empty object in which `roomName` or `participantName` is absent, null
or the empty string, the handler returns status 400 with the
"roomName and participantName are required" error; this happens for every
environment and every signing function, with no signing attempted, and the
configuration-error response is never returned for such input. -/
theorem C2_missing_fields_amended (sign : AccessToken → Except String String)
    (env : Env) (fields : List (String × JsonVal)) (hne : fields ≠ [])
    (h : lookupField fields "roomName" = none ∨
         lookupField fields "roomName" = some .null ∨
         lookupField fields "roomName" = some (.str "") ∨
         lookupField fields "participantName" = none ∨
         lookupField fields "participantName" = some .null ∨
         lookupField fields "participantName" = some (.str "")) :
    generate_token_run sign env (.obj fields) =
      (⟨400, .json (.obj [("error", .str "roomName and participantName are required")])⟩, none) ∧
    (generate_token_run sign env (.obj fields)).1 ≠
      ⟨500, .json (.obj [("error", .str "Server configuration error")])⟩ := by
  have hE : fields.isEmpty = false := by
    cases fields with
    | nil => exact absurd rfl hne
    | cons p rest => rfl
  have key : generate_token_run sign env (.obj fields) =
      (⟨400, .json (.obj [("error", .str "roomName and participantName are required")])⟩, none) := by
    rcases h with h | h | h | h | h | h <;>
      simp [generate_token_run, JsonVal.truthy, hE, h]
  exact ⟨key, by rw [key]; simp⟩

/-- Witness for the amended C2: a body carrying only `roomName`. -/
theorem C2_missing_fields_amended_witness :
    generate_token_run sign_jwt ⟨some "key", some "secret", none⟩
        (.obj [("roomName", .str "my-room")]) =
      (⟨400, .json (.obj [("error", .str "roomName and participantName are required")])⟩, none) ∧
    (generate_token_run sign_jwt ⟨some "key", some "secret", none⟩
        (.obj [("roomName", .str "my-room")])).1 ≠
      ⟨500, .json (.obj [("error", .str "Server configuration error")])⟩ :=
  C2_missing_fields_amended sign_jwt ⟨some "key", some "secret", none⟩
    [("roomName", .str "my-room")] (by simp)
    (Or.inr (Or.inr (Or.inr (Or.inl rfl))))

/-- C3: for every `POST /token` request with non-empty string `roomName`
and `participantName`, and for every `GET /getToken` request, if
`LIVEKIT_API_KEY` or `LIVEKIT_API_SECRET` is unset or empty, the handler
returns status 500 with the "Server configuration error" body and never
reaches the signing call. -/
theorem C3_config_error :
    (∀ (sign : AccessToken → Except String String) (env : Env)
        (fields : List (String × JsonVal)) (room pn : String),
      lookupField fields "roomName" = some (.str room) → room ≠ "" →
      lookupField fields "participantName" = some (.str pn) → pn ≠ "" →
      pyNot env.api_key = true ∨ pyNot env.api_secret = true →
      generate_token_run sign env (.obj fields) =
        (⟨500, .json (.obj [("error", .str "Server configuration error")])⟩, none)) ∧
    (∀ (sign : AccessToken → Except String String) (env : Env)
        (room participant : Option String),
      pyNot env.api_key = true ∨ pyNot env.api_secret = true →
      getToken_run sign env room participant =
        (⟨500, .json (.obj [("error", .str "Server configuration error")])⟩, none)) := by
  constructor
  · intro sign env fields room pn h1 h2 h3 h4 hc
    have hne := lookupField_ne_nil h1
    rcases hc with hc | hc <;>
      simp [generate_token_run, JsonVal.truthy, hne, h1, h2, h3, h4, hc]
  · intro sign env room participant hc
    rcases hc with hc | hc <;> simp [getToken_run, hc]

/-- Witness for C3: a valid body with both credentials unset, and the
legacy endpoint with the key set to the empty string. -/
theorem C3_config_error_witness :
    generate_token_run sign_jwt ⟨none, none, none⟩
        (.obj [("roomName", .str "test-room"), ("participantName", .str "test-participant")]) =
      (⟨500, .json (.obj [("error", .str "Server configuration error")])⟩, none) ∧
    getToken_run sign_jwt ⟨some "", some "secret", none⟩ none none =
      (⟨500, .json (.obj [("error", .str "Server configuration error")])⟩, none) :=
  ⟨C3_config_error.1 sign_jwt ⟨none, none, none⟩
    [("roomName", .str "test-room"), ("participantName", .str "test-participant")]
    "test-room" "test-participant" rfl (by decide) rfl (by decide) (Or.inl rfl),
   C3_config_error.2 sign_jwt ⟨some "", some "secret", none⟩ none none (Or.inl rfl)⟩

/-- C1 counterexample: `GET /getToken?room=` — the `room` query parameter
present but empty — with credentials configured reaches the signing call and
produces a signed token whose room name is the empty string, because the
legacy endpoint performs no validation and `request.args.get` only applies
its default to an absent parameter. -/
theorem C1_counterexample :
    (getToken_run sign_jwt ⟨some "key", some "secret", none⟩ (some "") none).2 =
      some ⟨"key", "secret", .str "anonymous", .str "anonymous",
        ⟨true, .str "", none, none, none⟩⟩ ∧
    (getToken_run sign_jwt ⟨some "key", some "secret", none⟩ (some "") none).1 =
      ⟨200, .raw (to_jwt ⟨"key", "secret", .str "anonymous", .str "anonymous",
        ⟨true, .str "", none, none, none⟩⟩)⟩ :=
  ⟨rfl, rfl⟩

/-- C1 (amended): whenever either handler reaches the signing call, the
signing key id and secret are configured and non-empty; on the `POST /token`
path additionally the room name and the participant name embedded in the
token are truthy (in particular neither absent, null nor the empty string).
The `GET /getToken` path performs no room/participant validation, so it can
sign with an empty room or participant name when an empty query value is
supplied explicitly. -/
theorem C1_signing_guard :
    (∀ (sign : AccessToken → Except String String) (env : Env) (data : JsonVal)
        (t : AccessToken),
      (generate_token_run sign env data).2 = some t →
      t.grants.room.truthy = true ∧ t.name.truthy = true ∧
        t.api_key ≠ "" ∧ t.api_secret ≠ "") ∧
    (∀ (sign : AccessToken → Except String String) (env : Env)
        (room participant : Option String) (t : AccessToken),
      (getToken_run sign env room participant).2 = some t →
      t.api_key ≠ "" ∧ t.api_secret ≠ "") := by
  constructor
  · intro sign env data t h
    simp only [generate_token_run] at h
    split at h
    · simp at h
    · split at h
      · split at h
        · simp at h
        · split at h
          · simp at h
          · rename_i hguard hcfg
            simp at hguard hcfg
            split at h <;>
            · simp only [Option.some.injEq] at h
              subst h
              exact ⟨hguard.1, hguard.2, pyNot_eq_false_getD hcfg.1,
                pyNot_eq_false_getD hcfg.2⟩
      · simp at h
  · intro sign env room participant t h
    simp only [getToken_run] at h
    split at h
    · simp at h
    · rename_i hcfg
      simp only [Bool.or_eq_true, not_or, Bool.not_eq_true] at hcfg
      split at h <;>
      · simp only [Option.some.injEq] at h
        subst h
        exact ⟨pyNot_eq_false_getD hcfg.1, pyNot_eq_false_getD hcfg.2⟩

/-- Witness for the amended C1 on a valid `POST /token` request. -/
theorem C1_signing_guard_witness :
    (AccessToken.mk "key" "secret" (.str "p") (.str "p")
        ⟨true, .str "r", some true, some true, some true⟩).grants.room.truthy = true ∧
    (AccessToken.mk "key" "secret" (.str "p") (.str "p")
        ⟨true, .str "r", some true, some true, some true⟩).name.truthy = true ∧
    (AccessToken.mk "key" "secret" (.str "p") (.str "p")
        ⟨true, .str "r", some true, some true, some true⟩).api_key ≠ "" ∧
    (AccessToken.mk "key" "secret" (.str "p") (.str "p")
        ⟨true, .str "r", some true, some true, some true⟩).api_secret ≠ "" ∧
    ((AccessToken.mk "key" "secret" (.str "anonymous") (.str "anonymous")
        ⟨true, .str "my-room", none, none, none⟩).api_key ≠ "" ∧
     (AccessToken.mk "key" "secret" (.str "anonymous") (.str "anonymous")
        ⟨true, .str "my-room", none, none, none⟩).api_secret ≠ "") :=
  ⟨(C1_signing_guard.1 sign_jwt ⟨some "key", some "secret", none⟩
      (.obj [("roomName", .str "r"), ("participantName", .str "p")]) _ rfl).1,
   (C1_signing_guard.1 sign_jwt ⟨some "key", some "secret", none⟩
      (.obj [("roomName", .str "r"), ("participantName", .str "p")]) _ rfl).2.1,
   (C1_signing_guard.1 sign_jwt ⟨some "key", some "secret", none⟩
      (.obj [("roomName", .str "r"), ("participantName", .str "p")]) _ rfl).2.2.1,
   (C1_signing_guard.1 sign_jwt ⟨some "key", some "secret", none⟩
      (.obj [("roomName", .str "r"), ("participantName", .str "p")]) _ rfl).2.2.2,
   C1_signing_guard.2 sign_jwt ⟨some "key", some "secret", none⟩ none none _ rfl⟩

/-- C6: every token signed on the `POST /token` path carries the full grant
set — `room_join=true`, `room` equal to the request's `roomName`,
`can_publish=true`, `can_subscribe=true`, `can_publish_data=true` — while
every token signed on the `GET /getToken` path carries only `room_join=true`
and the room name, with the publish, subscribe and publish-data flags
omitted. -/
theorem C6_grant_sets :
    (∀ (sign : AccessToken → Except String String) (env : Env)
        (fields : List (String × JsonVal)) (t : AccessToken),
      (generate_token_run sign env (.obj fields)).2 = some t →
      t.grants = ⟨true, (lookupField fields "roomName").getD .null,
        some true, some true, some true⟩) ∧
    (∀ (sign : AccessToken → Except String String) (env : Env)
        (room participant : Option String) (t : AccessToken),
      (getToken_run sign env room participant).2 = some t →
      t.grants = ⟨true, .str (room.getD "my-room"), none, none, none⟩) := by
  constructor
  · intro sign env fields t h
    simp only [generate_token_run] at h
    split at h
    · simp at h
    · split at h
      · simp at h
      · split at h
        · simp at h
        · split at h <;>
          · simp only [Option.some.injEq] at h
            subst h
            rfl
  · intro sign env room participant t h
    simp only [getToken_run] at h
    split at h
    · simp at h
    · split at h <;>
      · simp only [Option.some.injEq] at h
        subst h
        rfl

/-- Witness for C6 on both endpoints' signed tokens. -/
theorem C6_grant_sets_witness :
    (AccessToken.mk "key" "secret" (.str "p") (.str "p")
        ⟨true, .str "r", some true, some true, some true⟩).grants =
      ⟨true, (lookupField [("roomName", JsonVal.str "r"), ("participantName", JsonVal.str "p")]
        "roomName").getD .null, some true, some true, some true⟩ ∧
    (AccessToken.mk "key" "secret" (.str "anonymous") (.str "anonymous")
        ⟨true, .str "my-room", none, none, none⟩).grants =
      ⟨true, .str ((none : Option String).getD "my-room"), none, none, none⟩ :=
  ⟨C6_grant_sets.1 sign_jwt ⟨some "key", some "secret", none⟩
      [("roomName", .str "r"), ("participantName", .str "p")] _ rfl,
   C6_grant_sets.2 sign_jwt ⟨some "key", some "secret", none⟩ none none _ rfl⟩

/-- C4: on `POST /token` with non-empty `roomName` and `participantName`,
omitting `participantIdentity` succeeds and signs a token whose identity and
display name both equal `participantName`; supplying `participantIdentity`
uses that value as the identity while `participantName` stays the display
name. -/
theorem C4_identity_default :
    (∀ (env : Env) (fields : List (String × JsonVal)) (room pn key secret : String),
      lookupField fields "roomName" = some (.str room) → room ≠ "" →
      lookupField fields "participantName" = some (.str pn) → pn ≠ "" →
      lookupField fields "participantIdentity" = none →
      env.api_key = some key → key ≠ "" →
      env.api_secret = some secret → secret ≠ "" →
      ∃ t : AccessToken,
        (generate_token_run sign_jwt env (.obj fields)).2 = some t ∧
        t.identity = .str pn ∧ t.name = .str pn ∧
        (generate_token_run sign_jwt env (.obj fields)).1.status = 200) ∧
    (∀ (env : Env) (fields : List (String × JsonVal)) (room pn : String)
        (idv : JsonVal) (key secret : String),
      lookupField fields "roomName" = some (.str room) → room ≠ "" →
      lookupField fields "participantName" = some (.str pn) → pn ≠ "" →
      lookupField fields "participantIdentity" = some idv →
      env.api_key = some key → key ≠ "" →
      env.api_secret = some secret → secret ≠ "" →
      ∃ t : AccessToken,
        (generate_token_run sign_jwt env (.obj fields)).2 = some t ∧
        t.identity = idv ∧ t.name = .str pn ∧
        (generate_token_run sign_jwt env (.obj fields)).1.status = 200) := by
  constructor
  · intro env fields room pn key secret h1 h2 h3 h4 h5 hk hk' hs hs'
    have hne := lookupField_ne_nil h1
    refine ⟨⟨key, secret, .str pn, .str pn,
      ⟨true, .str room, some true, some true, some true⟩⟩, ?_, rfl, rfl, ?_⟩ <;>
      simp [generate_token_run, sign_jwt, JsonVal.truthy, pyNot, hne,
        h1, h2, h3, h4, h5, hk, hk', hs, hs']
  · intro env fields room pn idv key secret h1 h2 h3 h4 h5 hk hk' hs hs'
    have hne := lookupField_ne_nil h1
    refine ⟨⟨key, secret, idv, .str pn,
      ⟨true, .str room, some true, some true, some true⟩⟩, ?_, rfl, rfl, ?_⟩ <;>
      simp [generate_token_run, sign_jwt, JsonVal.truthy, pyNot, hne,
        h1, h2, h3, h4, h5, hk, hk', hs, hs']

/-- Witness for C4: `participantName="bob"` with `participantIdentity`
omitted embeds `bob` as both name and identity. -/
theorem C4_identity_default_witness :
    (∃ t : AccessToken,
      (generate_token_run sign_jwt ⟨some "key", some "secret", none⟩
        (.obj [("roomName", .str "my-room"), ("participantName", .str "bob")])).2 = some t ∧
      t.identity = .str "bob" ∧ t.name = .str "bob" ∧
      (generate_token_run sign_jwt ⟨some "key", some "secret", none⟩
        (.obj [("roomName", .str "my-room"), ("participantName", .str "bob")])).1.status = 200) ∧
    (∃ t : AccessToken,
      (generate_token_run sign_jwt ⟨some "key", some "secret", none⟩
        (.obj [("roomName", .str "my-room"), ("participantName", .str "bob"),
               ("participantIdentity", .str "bob-7")])).2 = some t ∧
      t.identity = .str "bob-7" ∧ t.name = .str "bob" ∧
      (generate_token_run sign_jwt ⟨some "key", some "secret", none⟩
        (.obj [("roomName", .str "my-room"), ("participantName", .str "bob"),
               ("participantIdentity", .str "bob-7")])).1.status = 200) :=
  ⟨C4_identity_default.1 ⟨some "key", some "secret", none⟩
    [("roomName", .str "my-room"), ("participantName", .str "bob")]
    "my-room" "bob" "key" "secret" rfl (by decide) rfl (by decide) rfl rfl
    (by decide) rfl (by decide),
   C4_identity_default.2 ⟨some "key", some "secret", none⟩
    [("roomName", .str "my-room"), ("participantName", .str "bob"),
     ("participantIdentity", .str "bob-7")]
    "my-room" "bob" (.str "bob-7") "key" "secret" rfl (by decide) rfl (by decide)
    rfl rfl (by decide) rfl (by decide)⟩

/-- C5: every successful `POST /token` response has status 200 and a JSON
body with exactly the four keys `serverUrl`, `roomName`, `participantName`,
`participantToken`, where `roomName` and `participantName` echo the
request's values and `serverUrl` is `LIVEKIT_URL` or `ws://localhost:7880`
when unset; no identity field appears among the keys. -/
theorem C5_success_shape (env : Env) (fields : List (String × JsonVal))
    (room pn key secret : String)
    (h1 : lookupField fields "roomName" = some (.str room)) (h2 : room ≠ "")
    (h3 : lookupField fields "participantName" = some (.str pn)) (h4 : pn ≠ "")
    (hk : env.api_key = some key) (hk' : key ≠ "")
    (hs : env.api_secret = some secret) (hs' : secret ≠ "") :
    ∃ jwt : String,
      generate_token env (.obj fields) =
        ⟨200, .json (.obj
          [("serverUrl", .str (env.url.getD "ws://localhost:7880")),
           ("roomName", .str room),
           ("participantName", .str pn),
           ("participantToken", .str jwt)])⟩ := by
  have hne := lookupField_ne_nil h1
  refine ⟨to_jwt ⟨key, secret, (lookupField fields "participantIdentity").getD (.str pn),
    .str pn, ⟨true, .str room, some true, some true, some true⟩⟩, ?_⟩
  simp [generate_token, generate_token_run, sign_jwt, JsonVal.truthy, pyNot, hne,
    h1, h2, h3, h4, hk, hk', hs, hs']

/-- Witness for C5 at the test script's request. -/
theorem C5_success_shape_witness :
    ∃ jwt : String,
      generate_token ⟨some "key", some "secret", some "wss://example.livekit.cloud"⟩
        (.obj [("roomName", .str "test-room"), ("participantName", .str "test-participant")]) =
      ⟨200, .json (.obj
        [("serverUrl", .str ((some "wss://example.livekit.cloud" : Option String).getD "ws://localhost:7880")),
         ("roomName", .str "test-room"),
         ("participantName", .str "test-participant"),
         ("participantToken", .str jwt)])⟩ :=
  C5_success_shape ⟨some "key", some "secret", some "wss://example.livekit.cloud"⟩
    [("roomName", .str "test-room"), ("participantName", .str "test-participant")]
    "test-room" "test-participant" "key" "secret"
    rfl (by decide) rfl (by decide) rfl (by decide) rfl (by decide)

/-- C8: on either endpoint, if the signing operation raises once the
signing call is reached, the handler catches the exception and returns
status 500 with exactly the "Internal server error" body — a constant
response in which the exception detail `e` does not occur. -/
theorem C8_signing_exception :
    (∀ (sign : AccessToken → Except String String) (env : Env) (data : JsonVal)
        (t : AccessToken) (e : String),
      (generate_token_run sign env data).2 = some t → sign t = .error e →
      (generate_token_run sign env data).1 =
        ⟨500, .json (.obj [("error", .str "Internal server error")])⟩) ∧
    (∀ (sign : AccessToken → Except String String) (env : Env)
        (room participant : Option String) (t : AccessToken) (e : String),
      (getToken_run sign env room participant).2 = some t → sign t = .error e →
      (getToken_run sign env room participant).1 =
        ⟨500, .json (.obj [("error", .str "Internal server error")])⟩) := by
  constructor
  · intro sign env data t e h hsig
    rcases hro : generate_token_run sign env data with ⟨r, o⟩
    rw [hro] at h
    simp only at h ⊢
    subst h
    simp only [generate_token_run] at hro
    split at hro
    · simp at hro
    · split at hro
      · split at hro
        · simp at hro
        · split at hro
          · simp at hro
          · split at hro
            · simp only [Prod.mk.injEq, Option.some.injEq] at hro
              rename_i jwt hok
              rw [← hro.2] at hsig
              rw [hok] at hsig
              cases hsig
            · simp only [Prod.mk.injEq, Option.some.injEq] at hro
              exact hro.1.symm
      · simp at hro
  · intro sign env room participant t e h hsig
    rcases hro : getToken_run sign env room participant with ⟨r, o⟩
    rw [hro] at h
    simp only at h ⊢
    subst h
    simp only [getToken_run] at hro
    split at hro
    · simp at hro
    · split at hro
      · simp only [Prod.mk.injEq, Option.some.injEq] at hro
        rename_i jwt hok
        rw [← hro.2] at hsig
        rw [hok] at hsig
        cases hsig
      · simp only [Prod.mk.injEq, Option.some.injEq] at hro
        exact hro.1.symm

/-- Witness for C8: a signer that always raises, on a valid request to each
endpoint. -/
theorem C8_signing_exception_witness :
    (generate_token_run (fun _ => Except.error "boom")
        ⟨some "key", some "secret", none⟩
        (.obj [("roomName", .str "r"), ("participantName", .str "p")])).1 =
      ⟨500, .json (.obj [("error", .str "Internal server error")])⟩ ∧
    (getToken_run (fun _ => Except.error "boom")
        ⟨some "key", some "secret", none⟩ none none).1 =
      ⟨500, .json (.obj [("error", .str "Internal server error")])⟩ :=
  ⟨C8_signing_exception.1 (fun _ => Except.error "boom")
    ⟨some "key", some "secret", none⟩
    (.obj [("roomName", .str "r"), ("participantName", .str "p")])
    ⟨"key", "secret", .str "p", .str "p",
      ⟨true, .str "r", some true, some true, some true⟩⟩ "boom" rfl rfl,
   C8_signing_exception.2 (fun _ => Except.error "boom")
    ⟨some "key", some "secret", none⟩ none none
    ⟨"key", "secret", .str "anonymous", .str "anonymous",
      ⟨true, .str "my-room", none, none, none⟩⟩ "boom" rfl rfl⟩

/-- C9: on `GET /getToken` an absent `room` query parameter defaults to
`my-room` and an absent `participant` defaults to `anonymous`; with
credentials configured the response is status 200 whose body is the raw
signed token string itself (not JSON-wrapped), a three-segment
dot-separated compact token. -/
theorem C9_legacy_defaults (env : Env) (key secret : String)
    (hk : env.api_key = some key) (hk' : key ≠ "")
    (hs : env.api_secret = some secret) (hs' : secret ≠ "")
    (room participant : Option String) :
    ∃ t : AccessToken,
      getToken_run sign_jwt env room participant =
        (⟨200, .raw (to_jwt t)⟩, some t) ∧
      t.identity = .str (participant.getD "anonymous") ∧
      t.name = .str (participant.getD "anonymous") ∧
      t.grants.room = .str (room.getD "my-room") ∧
      isCompactToken (to_jwt t) := by
  refine ⟨⟨key, secret, .str (participant.getD "anonymous"),
    .str (participant.getD "anonymous"),
    ⟨true, .str (room.getD "my-room"), none, none, none⟩⟩,
    ?_, rfl, rfl, rfl, to_jwt_isCompactToken _⟩
  simp [getToken_run, sign_jwt, pyNot, hk, hk', hs, hs']

/-- Witness for C9 with both query parameters omitted. -/
theorem C9_legacy_defaults_witness :
    ∃ t : AccessToken,
      getToken_run sign_jwt ⟨some "key", some "secret", none⟩ none none =
        (⟨200, .raw (to_jwt t)⟩, some t) ∧
      t.identity = .str ((none : Option String).getD "anonymous") ∧
      t.name = .str ((none : Option String).getD "anonymous") ∧
      t.grants.room = .str ((none : Option String).getD "my-room") ∧
      isCompactToken (to_jwt t) :=
  C9_legacy_defaults ⟨some "key", some "secret", none⟩ "key" "secret"
    rfl (by decide) rfl (by decide) none none
